import Mathlib

/-!
Verification of `scripts/lora_part_merge.py` (`merge_lora`) against its
specification.  The script is a thin procedural wrapper around library
calls, so the embedding models the library surface abstractly:

* `PyModel` — a Python object with an attribute dictionary
  (`String → Option Nat`; the `Nat` is an opaque handle to a submodule
  object).  `hasattr` / `setattr` mirror the Python builtins.
* `FS` — the filesystem, a map from paths to file contents.
* `Env` — the library calls the script delegates to
  (`AutoModel.from_pretrained`, `AutoTokenizer.from_pretrained`,
  `AutoProcessor.from_pretrained`, `PeftModel.from_pretrained`,
  `merge_and_unload`, the three `save_pretrained` methods), each a
  possibly-failing function (`Except String`) or a filesystem transformer.
* `merge_lora` — a direct transcription of the Python control flow,
  returning the outcome (`Except String Unit`), the ordered trace of
  completed steps, the final filesystem, and the model object that was
  handed to `save_pretrained` (for the frame property of step 5).

Events are recorded in the trace when the corresponding step completes;
an exception aborts the run with the remaining steps absent.
-/

/-- The filesystem: a map from path strings to file contents. -/
abbrev FS := String → Option String

/-- A Python model object: its attribute dictionary, mapping attribute
names to opaque submodule handles. -/
structure PyModel where
  attrs : String → Option Nat

/-- Python `hasattr(model, name)`. -/
def hasattr (m : PyModel) (name : String) : Bool :=
  (m.attrs name).isSome

/-- Python `setattr(model, name, v)`: rebind one attribute, leave the
rest of the object untouched. -/
def setattr (m : PyModel) (name : String) (v : Nat) : PyModel :=
  ⟨fun k => if k = name then some v else m.attrs k⟩

/-- Whether the string `s` starts with `p`, computed on the character
lists so that it reduces definitionally. -/
def strStartsWith (s p : String) : Bool :=
  p.data.isPrefixOf s.data

/-- Whether the string `s` ends with `p`, computed on the character
lists so that it reduces definitionally. -/
def strEndsWith (s p : String) : Bool :=
  p.data.reverse.isPrefixOf s.data.reverse

/-- `os.path.join(a, b)` for two components (POSIX semantics). -/
def ospath_join (a b : String) : String :=
  if strStartsWith b "/" then b
  else if a = "" then b
  else if strEndsWith a "/" then a ++ b
  else a ++ "/" ++ b

/-- `shutil.copy(src, dst)`: the destination now holds the source's
contents; every other path is untouched. -/
def shutil_copy (fs : FS) (src dst : String) : FS :=
  fun p => if p = dst then fs src else fs p

/-- The external library surface used by the script.  Loading functions
may raise (modelled as `Except String`); saving methods transform the
filesystem. -/
structure Env where
  autoModel_from_pretrained : String → Except String PyModel
  autoTokenizer_from_pretrained : String → Except String Nat
  autoProcessor_from_pretrained : String → Except String Nat
  peftModel_from_pretrained : Nat → String → Except String Nat
  merge_and_unload : Nat → Except String Nat
  model_save_pretrained : PyModel → String → FS → FS
  tokenizer_save_pretrained : Nat → String → FS → FS
  processor_save_pretrained : Nat → String → FS → FS

/-- The steps of `merge_lora`, recorded in execution order. -/
inductive Event where
  | loadModel
  | loadTokenizer
  | loadProcessor
  | processorMissing
  | extractSubmodule
  | loadAdapter
  | mergeAdapter
  | substitute
  | saveModel
  | saveTokenizer
  | saveProcessor
  | copyExtra
  | skipExtra
deriving DecidableEq, Repr

/-- Outcome of a run of `merge_lora`. -/
structure RunResult where
  result : Except String Unit
  trace : List Event
  fs : FS
  modelSaved : Option PyModel

/-- The message of the `AttributeError` raised at line 57 of the script. -/
def attrErrorMsg (submodule_name : String) : String :=
  "The model does not have a submodule named \x27" ++ submodule_name ++ "\x27."

/-- Shallow embedding of `merge_lora` from `scripts/lora_part_merge.py`,
transcribed step by step from the source (line numbers refer to the
Python file):

1. load model (l.44) and tokenizer (l.45); load processor inside
   `try/except Exception` (ll.47–51);
2. `hasattr` check raising `AttributeError` (ll.56–57), `getattr` (l.58);
3. `PeftModel.from_pretrained` on the submodule (l.62);
4. `merge_and_unload` (l.66);
5. `setattr` substitution (l.70);
6. `save_pretrained` for model, tokenizer and, if present, processor
   (ll.73–76);
7. copy `extra_file` from the base path if it exists, else skip
   (ll.80–86). -/
def merge_lora (env : Env) (fs : FS)
    (base_model_path : String) (lora_checkpoint_path : String)
    (extra_file : String := "spk_dict.pt")
    (submodule_name : String := "thinker")
    (save_path : String := "./merged_model_checkpoint") : RunResult :=
  match env.autoModel_from_pretrained base_model_path with
  | .error e => ⟨.error e, [], fs, none⟩
  | .ok model =>
    match env.autoTokenizer_from_pretrained base_model_path with
    | .error e => ⟨.error e, [.loadModel], fs, none⟩
    | .ok tokenizer =>
      let procLoaded : Option Nat × Event :=
        match env.autoProcessor_from_pretrained base_model_path with
        | .ok p => (some p, .loadProcessor)
        | .error _ => (none, .processorMissing)
      let processor := procLoaded.1
      let tr0 : List Event := [.loadModel, .loadTokenizer, procLoaded.2]
      match model.attrs submodule_name with
      | none => ⟨.error (attrErrorMsg submodule_name), tr0, fs, none⟩
      | some base_submodule =>
        let tr1 := tr0 ++ [Event.extractSubmodule]
        match env.peftModel_from_pretrained base_submodule lora_checkpoint_path with
        | .error e => ⟨.error e, tr1, fs, none⟩
        | .ok lora_model =>
          let tr2 := tr1 ++ [Event.loadAdapter]
          match env.merge_and_unload lora_model with
          | .error e => ⟨.error e, tr2, fs, none⟩
          | .ok merged_submodule =>
            let model2 := setattr model submodule_name merged_submodule
            let tr3 := tr2 ++ [Event.mergeAdapter, Event.substitute]
            let fs1 := env.model_save_pretrained model2 save_path fs
            let fs2 := env.tokenizer_save_pretrained tokenizer save_path fs1
            let step6 : FS × List Event :=
              match processor with
              | some p =>
                  (env.processor_save_pretrained p save_path fs2,
                   tr3 ++ [Event.saveModel, Event.saveTokenizer, Event.saveProcessor])
              | none => (fs2, tr3 ++ [Event.saveModel, Event.saveTokenizer])
            let fs3 := step6.1
            let tr4 := step6.2
            let source_file := ospath_join base_model_path extra_file
            let target_file := ospath_join save_path extra_file
            if (fs3 source_file).isSome then
              ⟨.ok (), tr4 ++ [Event.copyExtra],
               shutil_copy fs3 source_file target_file, some model2⟩
            else
              ⟨.ok (), tr4 ++ [Event.skipExtra], fs3, some model2⟩

/-- A concrete base model for witnesses: it has a `thinker` attribute
and a `config` attribute, nothing else. -/
def demoModel : PyModel :=
  ⟨fun k => if k = "thinker" then some 7 else if k = "config" then some 3 else none⟩

/-- A concrete, fully succeeding library environment for witnesses. -/
def demoEnv : Env :=
  ⟨fun _ => .ok demoModel,
   fun _ => .ok 1,
   fun _ => .ok 2,
   fun s _ => .ok (s + 100),
   fun l => .ok (l + 1),
   fun _ p f => fun q => if q = p ++ "/model.safetensors" then some "weights" else f q,
   fun _ p f => fun q => if q = p ++ "/tokenizer.json" then some "tok" else f q,
   fun _ p f => fun q => if q = p ++ "/processor.json" then some "proc" else f q⟩

/-- A concrete starting filesystem holding the auxiliary file. -/
def demoFS : FS :=
  fun p => if p = "base/spk_dict.pt" then some "speakerdata" else none

/-- The empty filesystem. -/
def emptyFS : FS := fun _ => none

/-- An environment whose base-model load raises. -/
def envModelFails : Env :=
  ⟨fun _ => .error "boom",
   demoEnv.autoTokenizer_from_pretrained,
   demoEnv.autoProcessor_from_pretrained,
   demoEnv.peftModel_from_pretrained,
   demoEnv.merge_and_unload,
   demoEnv.model_save_pretrained,
   demoEnv.tokenizer_save_pretrained,
   demoEnv.processor_save_pretrained⟩

/-- An environment identical to `demoEnv` except that processor loading
fails with an error that is not a missing-configuration condition. -/
def envProcFails : Env :=
  ⟨demoEnv.autoModel_from_pretrained,
   demoEnv.autoTokenizer_from_pretrained,
   fun _ => .error "permission denied while reading preprocessor config",
   demoEnv.peftModel_from_pretrained,
   demoEnv.merge_and_unload,
   demoEnv.model_save_pretrained,
   demoEnv.tokenizer_save_pretrained,
   demoEnv.processor_save_pretrained⟩

/-- C7: the trace of a successful run, as a function of whether the
processor loaded and whether the auxiliary file was found: a single
linear order with no branches back. -/
def expectedTrace (procOk extraFound : Bool) : List Event :=
  [.loadModel, .loadTokenizer,
   if procOk then .loadProcessor else .processorMissing,
   .extractSubmodule, .loadAdapter, .mergeAdapter, .substitute,
   .saveModel, .saveTokenizer]
  ++ (if procOk then [Event.saveProcessor] else [])
  ++ [if extraFound then Event.copyExtra else Event.skipExtra]

/-- Helper: success of an `Except` computation, as a Boolean. -/
def exceptOk {α : Type} (x : Except String α) : Bool :=
  match x with
  | .ok _ => true
  | .error _ => false

/-- C6: `merge_lora`'s default parameter values are exactly
`"spk_dict.pt"`, `"thinker"` and `"./merged_model_checkpoint"`:
calling it with those arguments omitted is the same call as supplying
them explicitly. -/
theorem merge_lora_default_values (env : Env) (fs : FS)
    (base_model_path lora_checkpoint_path : String) :
    merge_lora env fs base_model_path lora_checkpoint_path =
      merge_lora env fs base_model_path lora_checkpoint_path
        "spk_dict.pt" "thinker" "./merged_model_checkpoint" :=
  rfl

/-- C3: a failure of base-model loading or of tokenizer loading is
propagated unmodified (the very same exception is the run's outcome),
the run aborts with no later step performed, and the filesystem is
untouched. -/
theorem merge_lora_load_failure_propagates (env : Env) (fs : FS)
    (bp lp ef sn sp e : String)
    (h : env.autoModel_from_pretrained bp = .error e ∨
      (∃ m, env.autoModel_from_pretrained bp = .ok m ∧
        env.autoTokenizer_from_pretrained bp = .error e)) :
    (merge_lora env fs bp lp ef sn sp).result = .error e ∧
    (merge_lora env fs bp lp ef sn sp).fs = fs ∧
    Event.extractSubmodule ∉ (merge_lora env fs bp lp ef sn sp).trace ∧
    Event.loadAdapter ∉ (merge_lora env fs bp lp ef sn sp).trace ∧
    Event.saveModel ∉ (merge_lora env fs bp lp ef sn sp).trace ∧
    Event.copyExtra ∉ (merge_lora env fs bp lp ef sn sp).trace := by
  rcases h with hm | ⟨m, hm, ht⟩
  · simp [merge_lora, hm]
  · simp [merge_lora, hm, ht]

/-- Witness for C3 at a concrete failing environment. -/
theorem merge_lora_load_failure_propagates_witness :
    (merge_lora envModelFails emptyFS "base" "lora").result = .error "boom" ∧
    (merge_lora envModelFails emptyFS "base" "lora").fs = emptyFS ∧
    Event.extractSubmodule ∉ (merge_lora envModelFails emptyFS "base" "lora").trace ∧
    Event.loadAdapter ∉ (merge_lora envModelFails emptyFS "base" "lora").trace ∧
    Event.saveModel ∉ (merge_lora envModelFails emptyFS "base" "lora").trace ∧
    Event.copyExtra ∉ (merge_lora envModelFails emptyFS "base" "lora").trace :=
  merge_lora_load_failure_propagates envModelFails emptyFS "base" "lora"
    "spk_dict.pt" "thinker" "./merged_model_checkpoint" "boom" (Or.inl rfl)

/-- C1: when the loaded base model has no attribute `sn`, the run fails
with the `AttributeError` whose message names the missing submodule, and
this happens before any adapter loading, merging or saving is attempted. -/
theorem merge_lora_missing_submodule (env : Env) (fs : FS)
    (bp lp ef sn sp : String) (m : PyModel) (tk : Nat)
    (hm : env.autoModel_from_pretrained bp = .ok m)
    (ht : env.autoTokenizer_from_pretrained bp = .ok tk)
    (hs : m.attrs sn = none) :
    (merge_lora env fs bp lp ef sn sp).result = .error (attrErrorMsg sn) ∧
    attrErrorMsg sn =
      "The model does not have a submodule named \x27" ++ sn ++ "\x27." ∧
    Event.loadAdapter ∉ (merge_lora env fs bp lp ef sn sp).trace ∧
    Event.mergeAdapter ∉ (merge_lora env fs bp lp ef sn sp).trace ∧
    Event.saveModel ∉ (merge_lora env fs bp lp ef sn sp).trace ∧
    Event.saveTokenizer ∉ (merge_lora env fs bp lp ef sn sp).trace ∧
    Event.saveProcessor ∉ (merge_lora env fs bp lp ef sn sp).trace ∧
    Event.copyExtra ∉ (merge_lora env fs bp lp ef sn sp).trace := by
  cases hp : env.autoProcessor_from_pretrained bp <;>
    simp [merge_lora, hm, ht, hs, hp, attrErrorMsg]

/-- Witness for C1: asking `demoModel` for a `speaker` submodule fails
with the named error and without adapter or save steps. -/
theorem merge_lora_missing_submodule_witness :
    (merge_lora demoEnv demoFS "base" "lora" "spk_dict.pt" "speaker" "./out").result
      = .error (attrErrorMsg "speaker") ∧
    attrErrorMsg "speaker" =
      "The model does not have a submodule named \x27" ++ "speaker" ++ "\x27." ∧
    Event.loadAdapter ∉ (merge_lora demoEnv demoFS "base" "lora" "spk_dict.pt" "speaker" "./out").trace ∧
    Event.mergeAdapter ∉ (merge_lora demoEnv demoFS "base" "lora" "spk_dict.pt" "speaker" "./out").trace ∧
    Event.saveModel ∉ (merge_lora demoEnv demoFS "base" "lora" "spk_dict.pt" "speaker" "./out").trace ∧
    Event.saveTokenizer ∉ (merge_lora demoEnv demoFS "base" "lora" "spk_dict.pt" "speaker" "./out").trace ∧
    Event.saveProcessor ∉ (merge_lora demoEnv demoFS "base" "lora" "spk_dict.pt" "speaker" "./out").trace ∧
    Event.copyExtra ∉ (merge_lora demoEnv demoFS "base" "lora" "spk_dict.pt" "speaker" "./out").trace :=
  merge_lora_missing_submodule demoEnv demoFS "base" "lora" "spk_dict.pt" "speaker" "./out"
    demoModel 1 rfl rfl (by decide)

/-- Counterexample to C2: the `except Exception` at line 49 swallows a
processor-loading failure that is not a missing configuration — here a
permission error — and the run still completes successfully with the
processor treated as absent, instead of propagating the failure. -/
theorem merge_lora_processor_any_failure_swallowed :
    envProcFails.autoProcessor_from_pretrained "base"
      = .error "permission denied while reading preprocessor config" ∧
    (merge_lora envProcFails demoFS "base" "lora").result = .ok () ∧
    Event.processorMissing ∈ (merge_lora envProcFails demoFS "base" "lora").trace :=
  ⟨rfl, rfl, by decide⟩

/-- C2 (amended): every failure of processor loading, whatever its
cause, is treated as expected and recoverable — the run records the
processor as absent, continues, and (when the remaining steps succeed)
completes without propagating the processor failure and without saving
a processor. -/
theorem merge_lora_processor_failure_recoverable (env : Env) (fs : FS)
    (bp lp ef sn sp e : String) (m : PyModel) (tk bs lm ms : Nat)
    (hm : env.autoModel_from_pretrained bp = .ok m)
    (ht : env.autoTokenizer_from_pretrained bp = .ok tk)
    (hp : env.autoProcessor_from_pretrained bp = .error e)
    (hs : m.attrs sn = some bs)
    (hpf : env.peftModel_from_pretrained bs lp = .ok lm)
    (hmu : env.merge_and_unload lm = .ok ms) :
    (merge_lora env fs bp lp ef sn sp).result = .ok () ∧
    Event.processorMissing ∈ (merge_lora env fs bp lp ef sn sp).trace ∧
    Event.saveProcessor ∉ (merge_lora env fs bp lp ef sn sp).trace := by
  simp only [merge_lora, hm, ht, hp, hs, hpf, hmu]
  split <;> simp

/-- Witness for the amended C2 at a concrete environment whose
processor load fails with a permission error. -/
theorem merge_lora_processor_failure_recoverable_witness :
    (merge_lora envProcFails demoFS "base" "lora").result = .ok () ∧
    Event.processorMissing ∈ (merge_lora envProcFails demoFS "base" "lora").trace ∧
    Event.saveProcessor ∉ (merge_lora envProcFails demoFS "base" "lora").trace :=
  merge_lora_processor_failure_recoverable envProcFails demoFS "base" "lora"
    "spk_dict.pt" "thinker" "./merged_model_checkpoint"
    "permission denied while reading preprocessor config"
    demoModel 1 7 107 108 rfl rfl rfl (by decide) rfl rfl

/-- C5: when the processor is absent (its load failed) and the rest of
the run succeeds, the run completes, no processor-save step runs, and
the model and tokenizer are still saved. -/
theorem merge_lora_no_processor_files (env : Env) (fs : FS)
    (bp lp ef sn sp e : String) (m : PyModel) (tk bs lm ms : Nat)
    (hm : env.autoModel_from_pretrained bp = .ok m)
    (ht : env.autoTokenizer_from_pretrained bp = .ok tk)
    (hp : env.autoProcessor_from_pretrained bp = .error e)
    (hs : m.attrs sn = some bs)
    (hpf : env.peftModel_from_pretrained bs lp = .ok lm)
    (hmu : env.merge_and_unload lm = .ok ms) :
    (merge_lora env fs bp lp ef sn sp).result = .ok () ∧
    Event.saveProcessor ∉ (merge_lora env fs bp lp ef sn sp).trace ∧
    Event.saveModel ∈ (merge_lora env fs bp lp ef sn sp).trace ∧
    Event.saveTokenizer ∈ (merge_lora env fs bp lp ef sn sp).trace := by
  simp only [merge_lora, hm, ht, hp, hs, hpf, hmu]
  split <;> simp

/-- Witness for C5 at a concrete environment without a processor. -/
theorem merge_lora_no_processor_files_witness :
    (merge_lora envProcFails demoFS "base" "lora").result = .ok () ∧
    Event.saveProcessor ∉ (merge_lora envProcFails demoFS "base" "lora").trace ∧
    Event.saveModel ∈ (merge_lora envProcFails demoFS "base" "lora").trace ∧
    Event.saveTokenizer ∈ (merge_lora envProcFails demoFS "base" "lora").trace :=
  merge_lora_no_processor_files envProcFails demoFS "base" "lora"
    "spk_dict.pt" "thinker" "./merged_model_checkpoint"
    "permission denied while reading preprocessor config"
    demoModel 1 7 107 108 rfl rfl rfl (by decide) rfl rfl

/-- Helper: the complete outcome of a run in which every load and merge
step succeeds and the processor is available. -/
theorem merge_lora_run_eq_procOk (env : Env) (fs : FS)
    (bp lp ef sn sp : String) (m : PyModel) (tk pc bs lm ms : Nat)
    (hm : env.autoModel_from_pretrained bp = .ok m)
    (ht : env.autoTokenizer_from_pretrained bp = .ok tk)
    (hp : env.autoProcessor_from_pretrained bp = .ok pc)
    (hs : m.attrs sn = some bs)
    (hpf : env.peftModel_from_pretrained bs lp = .ok lm)
    (hmu : env.merge_and_unload lm = .ok ms) :
    merge_lora env fs bp lp ef sn sp =
      if ((env.processor_save_pretrained pc sp
            (env.tokenizer_save_pretrained tk sp
              (env.model_save_pretrained (setattr m sn ms) sp fs)))
          (ospath_join bp ef)).isSome then
        ⟨.ok (),
         [.loadModel, .loadTokenizer, .loadProcessor, .extractSubmodule, .loadAdapter,
          .mergeAdapter, .substitute, .saveModel, .saveTokenizer, .saveProcessor, .copyExtra],
         shutil_copy
           (env.processor_save_pretrained pc sp
             (env.tokenizer_save_pretrained tk sp
               (env.model_save_pretrained (setattr m sn ms) sp fs)))
           (ospath_join bp ef) (ospath_join sp ef),
         some (setattr m sn ms)⟩
      else
        ⟨.ok (),
         [.loadModel, .loadTokenizer, .loadProcessor, .extractSubmodule, .loadAdapter,
          .mergeAdapter, .substitute, .saveModel, .saveTokenizer, .saveProcessor, .skipExtra],
         env.processor_save_pretrained pc sp
           (env.tokenizer_save_pretrained tk sp
             (env.model_save_pretrained (setattr m sn ms) sp fs)),
         some (setattr m sn ms)⟩ := by
  simp [merge_lora, hm, ht, hp, hs, hpf, hmu]

/-- Helper: the complete outcome of a run in which every load and merge
step succeeds but processor loading fails. -/
theorem merge_lora_run_eq_procFail (env : Env) (fs : FS)
    (bp lp ef sn sp e : String) (m : PyModel) (tk bs lm ms : Nat)
    (hm : env.autoModel_from_pretrained bp = .ok m)
    (ht : env.autoTokenizer_from_pretrained bp = .ok tk)
    (hp : env.autoProcessor_from_pretrained bp = .error e)
    (hs : m.attrs sn = some bs)
    (hpf : env.peftModel_from_pretrained bs lp = .ok lm)
    (hmu : env.merge_and_unload lm = .ok ms) :
    merge_lora env fs bp lp ef sn sp =
      if ((env.tokenizer_save_pretrained tk sp
            (env.model_save_pretrained (setattr m sn ms) sp fs))
          (ospath_join bp ef)).isSome then
        ⟨.ok (),
         [.loadModel, .loadTokenizer, .processorMissing, .extractSubmodule, .loadAdapter,
          .mergeAdapter, .substitute, .saveModel, .saveTokenizer, .copyExtra],
         shutil_copy
           (env.tokenizer_save_pretrained tk sp
             (env.model_save_pretrained (setattr m sn ms) sp fs))
           (ospath_join bp ef) (ospath_join sp ef),
         some (setattr m sn ms)⟩
      else
        ⟨.ok (),
         [.loadModel, .loadTokenizer, .processorMissing, .extractSubmodule, .loadAdapter,
          .mergeAdapter, .substitute, .saveModel, .saveTokenizer, .skipExtra],
         env.tokenizer_save_pretrained tk sp
           (env.model_save_pretrained (setattr m sn ms) sp fs),
         some (setattr m sn ms)⟩ := by
  simp [merge_lora, hm, ht, hp, hs, hpf, hmu]

/-- C9: if the run ends in an error, the filesystem is exactly the
initial one (nothing was written to the output directory) and no save
or copy step was performed. -/
theorem merge_lora_error_leaves_output_unchanged (env : Env) (fs : FS)
    (bp lp ef sn sp e : String)
    (h : (merge_lora env fs bp lp ef sn sp).result = .error e) :
    (merge_lora env fs bp lp ef sn sp).fs = fs ∧
    Event.saveModel ∉ (merge_lora env fs bp lp ef sn sp).trace ∧
    Event.saveTokenizer ∉ (merge_lora env fs bp lp ef sn sp).trace ∧
    Event.saveProcessor ∉ (merge_lora env fs bp lp ef sn sp).trace ∧
    Event.copyExtra ∉ (merge_lora env fs bp lp ef sn sp).trace := by
  cases h1 : env.autoModel_from_pretrained bp with
  | error e1 => simp [merge_lora, h1]
  | ok m =>
    cases h2 : env.autoTokenizer_from_pretrained bp with
    | error e2 => simp [merge_lora, h1, h2]
    | ok tk =>
      cases h4 : m.attrs sn with
      | none =>
        cases h3 : env.autoProcessor_from_pretrained bp <;>
          simp [merge_lora, h1, h2, h3, h4]
      | some bs =>
        cases h5 : env.peftModel_from_pretrained bs lp with
        | error e5 =>
          cases h3 : env.autoProcessor_from_pretrained bp <;>
            simp [merge_lora, h1, h2, h3, h4, h5]
        | ok lm =>
          cases h6 : env.merge_and_unload lm with
          | error e6 =>
            cases h3 : env.autoProcessor_from_pretrained bp <;>
              simp [merge_lora, h1, h2, h3, h4, h5, h6]
          | ok ms =>
            cases h3 : env.autoProcessor_from_pretrained bp with
            | error e3 =>
              rw [merge_lora_run_eq_procFail env fs bp lp ef sn sp e3 m tk bs lm ms
                h1 h2 h3 h4 h5 h6] at h
              split at h <;> simp at h
            | ok pc =>
              rw [merge_lora_run_eq_procOk env fs bp lp ef sn sp m tk pc bs lm ms
                h1 h2 h3 h4 h5 h6] at h
              split at h <;> simp at h

/-- Witness for C9 at a concrete run whose adapter load fails. -/
theorem merge_lora_error_leaves_output_unchanged_witness :
    (merge_lora envModelFails demoFS "base" "lora").fs = demoFS ∧
    Event.saveModel ∉ (merge_lora envModelFails demoFS "base" "lora").trace ∧
    Event.saveTokenizer ∉ (merge_lora envModelFails demoFS "base" "lora").trace ∧
    Event.saveProcessor ∉ (merge_lora envModelFails demoFS "base" "lora").trace ∧
    Event.copyExtra ∉ (merge_lora envModelFails demoFS "base" "lora").trace :=
  merge_lora_error_leaves_output_unchanged envModelFails demoFS "base" "lora"
    "spk_dict.pt" "thinker" "./merged_model_checkpoint" "boom" rfl

/-- C10: in a successful run, the model handed to the save step is the
base model with exactly the one attribute `sn` rebound to the merged
submodule; every other attribute is unchanged. -/
theorem merge_lora_substitute_frame (env : Env) (fs : FS)
    (bp lp ef sn sp : String) (m : PyModel) (tk bs lm ms : Nat)
    (hm : env.autoModel_from_pretrained bp = .ok m)
    (ht : env.autoTokenizer_from_pretrained bp = .ok tk)
    (hs : m.attrs sn = some bs)
    (hpf : env.peftModel_from_pretrained bs lp = .ok lm)
    (hmu : env.merge_and_unload lm = .ok ms) :
    (merge_lora env fs bp lp ef sn sp).modelSaved = some (setattr m sn ms) ∧
    (setattr m sn ms).attrs sn = some ms ∧
    (∀ k, k ≠ sn → (setattr m sn ms).attrs k = m.attrs k) := by
  refine ⟨?_, by simp [setattr], fun k hk => by simp [setattr, hk]⟩
  cases h3 : env.autoProcessor_from_pretrained bp with
  | ok pc =>
    rw [merge_lora_run_eq_procOk env fs bp lp ef sn sp m tk pc bs lm ms
      hm ht h3 hs hpf hmu]
    split <;> rfl
  | error e =>
    rw [merge_lora_run_eq_procFail env fs bp lp ef sn sp e m tk bs lm ms
      hm ht h3 hs hpf hmu]
    split <;> rfl

/-- Witness for C10 at the fully succeeding environment: `thinker` is
rebound, `config` is untouched. -/
theorem merge_lora_substitute_frame_witness :
    (merge_lora demoEnv demoFS "base" "lora").modelSaved
      = some (setattr demoModel "thinker" 108) ∧
    (setattr demoModel "thinker" 108).attrs "thinker" = some 108 ∧
    (∀ k, k ≠ "thinker" →
      (setattr demoModel "thinker" 108).attrs k = demoModel.attrs k) :=
  merge_lora_substitute_frame demoEnv demoFS "base" "lora"
    "spk_dict.pt" "thinker" "./merged_model_checkpoint"
    demoModel 1 7 107 108 rfl rfl (by decide) rfl rfl

/-- C7: every successful run performs its steps in exactly the linear
order load model/tokenizer/processor → extract submodule → load adapter
→ merge → substitute → save model/tokenizer/processor → copy or skip
the auxiliary file. -/
theorem merge_lora_linear_step_order (env : Env) (fs : FS)
    (bp lp ef sn sp : String) (m : PyModel) (tk bs lm ms : Nat)
    (hm : env.autoModel_from_pretrained bp = .ok m)
    (ht : env.autoTokenizer_from_pretrained bp = .ok tk)
    (hs : m.attrs sn = some bs)
    (hpf : env.peftModel_from_pretrained bs lp = .ok lm)
    (hmu : env.merge_and_unload lm = .ok ms) :
    (merge_lora env fs bp lp ef sn sp).result = .ok () ∧
    ∃ extraFound : Bool,
      (merge_lora env fs bp lp ef sn sp).trace =
        expectedTrace (exceptOk (env.autoProcessor_from_pretrained bp)) extraFound := by
  cases h3 : env.autoProcessor_from_pretrained bp with
  | ok pc =>
    rw [merge_lora_run_eq_procOk env fs bp lp ef sn sp m tk pc bs lm ms
      hm ht h3 hs hpf hmu]
    split
    · exact ⟨rfl, true, by simp [expectedTrace, exceptOk]⟩
    · exact ⟨rfl, false, by simp [expectedTrace, exceptOk]⟩
  | error e3 =>
    rw [merge_lora_run_eq_procFail env fs bp lp ef sn sp e3 m tk bs lm ms
      hm ht h3 hs hpf hmu]
    split
    · exact ⟨rfl, true, by simp [expectedTrace, exceptOk]⟩
    · exact ⟨rfl, false, by simp [expectedTrace, exceptOk]⟩

/-- Witness for C7 at the fully succeeding environment (the auxiliary
file is present, the processor loads). -/
theorem merge_lora_linear_step_order_witness :
    (merge_lora demoEnv demoFS "base" "lora").result = .ok () ∧
    ∃ extraFound : Bool,
      (merge_lora demoEnv demoFS "base" "lora").trace =
        expectedTrace (exceptOk (demoEnv.autoProcessor_from_pretrained "base")) extraFound :=
  merge_lora_linear_step_order demoEnv demoFS "base" "lora"
    "spk_dict.pt" "thinker" "./merged_model_checkpoint"
    demoModel 1 7 107 108 rfl rfl (by decide) rfl rfl

/-- C4: a run whose loads and merge succeed and in which the auxiliary
file is absent at its source path completes without error and without
performing any copy (the copy step is skipped). -/
theorem merge_lora_missing_extra_file_skips (env : Env) (fs : FS)
    (bp lp ef sn sp : String) (m : PyModel) (tk bs lm ms : Nat)
    (hm : env.autoModel_from_pretrained bp = .ok m)
    (ht : env.autoTokenizer_from_pretrained bp = .ok tk)
    (hs : m.attrs sn = some bs)
    (hpf : env.peftModel_from_pretrained bs lp = .ok lm)
    (hmu : env.merge_and_unload lm = .ok ms)
    (hnone : (merge_lora env fs bp lp ef sn sp).fs (ospath_join bp ef) = none) :
    (merge_lora env fs bp lp ef sn sp).result = .ok () ∧
    Event.copyExtra ∉ (merge_lora env fs bp lp ef sn sp).trace ∧
    Event.skipExtra ∈ (merge_lora env fs bp lp ef sn sp).trace := by
  cases h3 : env.autoProcessor_from_pretrained bp with
  | ok pc =>
    rw [merge_lora_run_eq_procOk env fs bp lp ef sn sp m tk pc bs lm ms
      hm ht h3 hs hpf hmu] at hnone ⊢
    split at hnone
    case isTrue hc =>
      simp only [shutil_copy, ite_self] at hnone
      rw [hnone] at hc
      simp at hc
    case isFalse hc =>
      rw [if_neg hc]
      simp
  | error e3 =>
    rw [merge_lora_run_eq_procFail env fs bp lp ef sn sp e3 m tk bs lm ms
      hm ht h3 hs hpf hmu] at hnone ⊢
    split at hnone
    case isTrue hc =>
      simp only [shutil_copy, ite_self] at hnone
      rw [hnone] at hc
      simp at hc
    case isFalse hc =>
      rw [if_neg hc]
      simp

/-- Witness for C4: starting from the empty filesystem, the auxiliary
file is absent and the run skips the copy. -/
theorem merge_lora_missing_extra_file_skips_witness :
    (merge_lora demoEnv emptyFS "base" "lora").result = .ok () ∧
    Event.copyExtra ∉ (merge_lora demoEnv emptyFS "base" "lora").trace ∧
    Event.skipExtra ∈ (merge_lora demoEnv emptyFS "base" "lora").trace :=
  merge_lora_missing_extra_file_skips demoEnv emptyFS "base" "lora"
    "spk_dict.pt" "thinker" "./merged_model_checkpoint"
    demoModel 1 7 107 108 rfl rfl (by decide) rfl rfl rfl

/-- C8: in a successful run in which the auxiliary file exists at the
source path, the output path holds a verbatim copy: the final contents
at `save_path/extra_file` equal the final contents at
`base_model_path/extra_file`, and the copy step ran. -/
theorem merge_lora_extra_file_verbatim (env : Env) (fs : FS)
    (bp lp ef sn sp : String) (m : PyModel) (tk bs lm ms : Nat)
    (hm : env.autoModel_from_pretrained bp = .ok m)
    (ht : env.autoTokenizer_from_pretrained bp = .ok tk)
    (hs : m.attrs sn = some bs)
    (hpf : env.peftModel_from_pretrained bs lp = .ok lm)
    (hmu : env.merge_and_unload lm = .ok ms)
    (hsrc : ((merge_lora env fs bp lp ef sn sp).fs (ospath_join bp ef)).isSome = true) :
    (merge_lora env fs bp lp ef sn sp).result = .ok () ∧
    (merge_lora env fs bp lp ef sn sp).fs (ospath_join sp ef) =
      (merge_lora env fs bp lp ef sn sp).fs (ospath_join bp ef) ∧
    Event.copyExtra ∈ (merge_lora env fs bp lp ef sn sp).trace := by
  cases h3 : env.autoProcessor_from_pretrained bp with
  | ok pc =>
    rw [merge_lora_run_eq_procOk env fs bp lp ef sn sp m tk pc bs lm ms
      hm ht h3 hs hpf hmu] at hsrc ⊢
    split at hsrc
    case isTrue hc =>
      rw [if_pos hc]
      refine ⟨rfl, ?_, by simp⟩
      simp [shutil_copy]
    case isFalse hc =>
      simp only [shutil_copy, ite_self] at hsrc
      exact absurd hsrc hc
  | error e3 =>
    rw [merge_lora_run_eq_procFail env fs bp lp ef sn sp e3 m tk bs lm ms
      hm ht h3 hs hpf hmu] at hsrc ⊢
    split at hsrc
    case isTrue hc =>
      rw [if_pos hc]
      refine ⟨rfl, ?_, by simp⟩
      simp [shutil_copy]
    case isFalse hc =>
      simp only [shutil_copy, ite_self] at hsrc
      exact absurd hsrc hc

/-- Witness for C8: `demoFS` holds the auxiliary file at the source
path, and the run copies it verbatim to the output path. -/
theorem merge_lora_extra_file_verbatim_witness :
    (merge_lora demoEnv demoFS "base" "lora").result = .ok () ∧
    (merge_lora demoEnv demoFS "base" "lora").fs
        (ospath_join "./merged_model_checkpoint" "spk_dict.pt") =
      (merge_lora demoEnv demoFS "base" "lora").fs (ospath_join "base" "spk_dict.pt") ∧
    Event.copyExtra ∈ (merge_lora demoEnv demoFS "base" "lora").trace :=
  merge_lora_extra_file_verbatim demoEnv demoFS "base" "lora"
    "spk_dict.pt" "thinker" "./merged_model_checkpoint"
    demoModel 1 7 107 108 rfl rfl (by decide) rfl rfl rfl
